import Mathlib

/-!
Shallow embedding of the mizu installation health-check engine
(src/cli/cmd/check.go) and proofs of the spec claims about it.

Cluster interactions (kubernetesProvider queries, the embedded manifest, the
watch channels, the tunnel handles) are modelled as oracles supplied in an
environment record; the control flow of each function of check.go is
translated line by line.
-/

set_option autoImplicit false

namespace Mizu

/-- Pod lifecycle phase (k8s core.PodPhase); check.go only ever asks whether it
is Running. -/
inductive PodPhase where
  | pending
  | running
  | succeeded
  | failed
  | unknown
  deriving DecidableEq, Repr

/-- Snapshot of a pod as seen by check.go: only the status phase is read. -/
structure Pod where
  phase : PodPhase
  deriving DecidableEq, Repr

/-- Modelled from the spec: kubernetes.IsPodRunning lives in shared/kubernetes,
which is not under src/. Spec glossary: "Readiness: a pod's observed lifecycle
phase indicating it is accepting traffic"; a pod counts as running exactly when
its phase is Running. -/
def isPodRunning (p : Pod) : Bool :=
  p.phase == PodPhase.running

instance {α β : Type} [DecidableEq α] [DecidableEq β] : DecidableEq (Except α β) := fun a b =>
  match a, b with
  | Except.error x, Except.error y =>
      if h : x = y then isTrue (by rw [h]) else isFalse (by intro hc; cases hc; exact h rfl)
  | Except.error _, Except.ok _ => isFalse (by intro hc; cases hc)
  | Except.ok _, Except.error _ => isFalse (by intro hc; cases hc)
  | Except.ok x, Except.ok y =>
      if h : x = y then isTrue (by rw [h]) else isFalse (by intro hc; cases hc; exact h rfl)

/-- One delivery observed by the select loop of checkImagePulled before the
30-second deadline: a value or a close on the pod-event channel, or a value or
a close on the error channel.  A pod event carries the result of
wEvent.ToPod() (shared/kubernetes, modelled from the spec as a fallible
conversion to a pod snapshot). -/
inductive WatchItem where
  | evt (conv : Except String Pod)
  | evtClosed
  | errItem (e : String)
  | errClosed
  deriving DecidableEq, Repr

/-- Result of the readiness wait: success, or failure with the returned error
message. -/
inductive PullResult where
  | success
  | failure (msg : String)
  deriving DecidableEq, Repr

/-- checkImagePulled (check.go:376-410) over the merged, ordered trace of
channel deliveries.  The trace lists everything the select loop observes before
the 30-second timer fires; the timer case runs when the trace is exhausted, so
the timeout failure is produced exactly at the deadline.  A closed channel is
set to nil and the loop continues selecting on whatever remains open. -/
def checkImagePulled : List WatchItem → PullResult
  | [] => PullResult.failure "image not pulled in time"
  | WatchItem.evt (Except.error e) :: _ => PullResult.failure e
  | WatchItem.evt (Except.ok pod) :: rest =>
      if pod.phase = PodPhase.running then PullResult.success else checkImagePulled rest
  | WatchItem.evtClosed :: rest => checkImagePulled rest
  | WatchItem.errItem e :: _ => PullResult.failure e
  | WatchItem.errClosed :: rest => checkImagePulled rest

/-- A watch item that does not end the select loop of checkImagePulled: a close
on either channel, or a well-formed pod event whose phase is not Running. -/
def nonTerminal : WatchItem → Bool
  | WatchItem.evt (Except.ok pod) => !(pod.phase == PodPhase.running)
  | WatchItem.evt (Except.error _) => false
  | WatchItem.evtClosed => true
  | WatchItem.errItem _ => false
  | WatchItem.errClosed => true

/-- rbac.PolicyRule as consumed by checkPermissions: only the APIGroups,
Resources and Verbs fields are read. -/
structure PolicyRule where
  apiGroups : List String
  resources : List String
  verbs : List String
  deriving DecidableEq, Repr

/-- Oracle for kubernetesProvider.CanI, applied to (group, resource, verb);
answers (exist, err).  The Go call site passes (namespace, resource, verb,
group); the namespace is fixed for the run. -/
def CanIOracle : Type := String → String → String → Bool × Option String

/-- checkPermissionExist (check.go:343-354): an error or a not-allowed answer
is a failure; otherwise the tuple passes. -/
def checkPermissionExist (exist : Bool) (err : Option String) : Bool :=
  match err with
  | some _ => false
  | none => if !exist then false else true

/-- The (group, resource, verb) tuples enumerated by the three nested loops of
checkPermissions (check.go:329-337), in loop order, duplicates kept. -/
def permTuples (rules : List PolicyRule) : List (String × String × String) :=
  rules.flatMap fun rule =>
    rule.apiGroups.flatMap fun group =>
      rule.resources.flatMap fun resource =>
        rule.verbs.map fun verb => (group, resource, verb)

/-- The loop body of checkPermissions (check.go:326-341), flattened over the
enumerated tuples: permissionsExist = checkPermissionExist(...) &&
permissionsExist, and one reported record per tuple. -/
def permLoop (canI : CanIOracle) :
    List (String × String × String) → Bool → Bool × List (String × String × String × Bool)
  | [], acc => (acc, [])
  | (group, resource, verb) :: rest, acc =>
      let q := canI group resource verb
      let ok := checkPermissionExist q.1 q.2
      let r := permLoop canI rest (ok && acc)
      (r.1, (group, resource, verb, ok) :: r.2)

/-- checkPermissions (check.go:326-341): verdict plus the per-tuple report. -/
def checkPermissions (canI : CanIOracle) (rules : List PolicyRule) :
    Bool × List (String × String × String × Bool) :=
  permLoop canI (permTuples rules) true

/-- Subjects reported by the resource-existence stage. -/
inductive ResourceKind where
  | nsResource
  | configMap
  | serviceAccount
  | role
  | roleBinding
  | clusterRole
  | clusterRoleBinding
  | service
  | serverPod
  | tapperPods
  deriving DecidableEq, Repr

/-- One reported line of the resource-existence stage; detail carries the
(notRunning, total) pod counts for the tapper entry. -/
structure ReportEntry where
  subject : ResourceKind
  passed : Bool
  detail : Option (Nat × Nat)
  deriving DecidableEq, Repr

/-- checkResourceExist (check.go:270-281): an error or a missing resource is a
failure; otherwise the entry passes. -/
def checkResourceExist (exist : Bool) (err : Option String) : Bool :=
  match err with
  | some _ => false
  | none => if !exist then false else true

/-- Oracle answers for one run of checkK8sResources: one (exist, err) pair per
existence query, and the two pod listings (ListPodsByAppLabel). -/
structure K8sResourcesEnv where
  namespaceQ : Bool × Option String
  configMapQ : Bool × Option String
  serviceAccountQ : Bool × Option String
  roleQ : Bool × Option String
  roleBindingQ : Bool × Option String
  clusterRoleQ : Bool × Option String
  clusterRoleBindingQ : Bool × Option String
  serviceQ : Bool × Option String
  serverPodsQ : Except String (List Pod)
  tapperPodsQ : Except String (List Pod)
  deriving DecidableEq, Repr

/-- One step per listed pod of the tapper counting loop of
checkPodResourcesExist (check.go:250-258): tappers += 1, and
notRunningTappers += 1 when the pod is not running. -/
def countTappersLoop : List Pod → Nat × Nat → Nat × Nat
  | [], acc => acc
  | pod :: rest, acc =>
      countTappersLoop rest (acc.1 + 1, if !(isPodRunning pod) then acc.2 + 1 else acc.2)

/-- The tapper counting loop started from (0, 0): returns
(tappers, notRunningTappers). -/
def countTappers (pods : List Pod) : Nat × Nat :=
  countTappersLoop pods (0, 0)

/-- The tapper-pod half of checkPodResourcesExist (check.go:246-267): listing
error fails, k not-running out of N fails when k > 0, otherwise passes. -/
def checkTapperPods (tapperPodsQ : Except String (List Pod)) : Bool × List ReportEntry :=
  match tapperPodsQ with
  | Except.error _ => (false, [⟨ResourceKind.tapperPods, false, none⟩])
  | Except.ok pods =>
      let c := countTappers pods
      if c.2 > 0 then (false, [⟨ResourceKind.tapperPods, false, some (c.2, c.1)⟩])
      else (true, [⟨ResourceKind.tapperPods, true, some (c.2, c.1)⟩])

/-- checkPodResourcesExist (check.go:232-268): the api-server pod check first;
only if it passes does the tapper pod check run. -/
def checkPodResourcesExist (serverPodsQ tapperPodsQ : Except String (List Pod)) :
    Bool × List ReportEntry :=
  match serverPodsQ with
  | Except.error _ => (false, [⟨ResourceKind.serverPod, false, none⟩])
  | Except.ok [] => (false, [⟨ResourceKind.serverPod, false, none⟩])
  | Except.ok (pod0 :: _) =>
      if !(isPodRunning pod0) then (false, [⟨ResourceKind.serverPod, false, none⟩])
      else
        let t := checkTapperPods tapperPodsQ
        (t.1, ⟨ResourceKind.serverPod, true, none⟩ :: t.2)

/-- checkK8sResources (check.go:198-230): every catalog entry is queried in
order with allResourcesExist = newResult && allResourcesExist, the Role pair or
ClusterRole pair chosen by namespace-restricted mode, then the pod checks. -/
def checkK8sResources (nsRestricted : Bool) (env : K8sResourcesEnv) :
    Bool × List ReportEntry :=
  let r1 := checkResourceExist env.namespaceQ.1 env.namespaceQ.2
  let acc1 := r1
  let r2 := checkResourceExist env.configMapQ.1 env.configMapQ.2
  let acc2 := r2 && acc1
  let r3 := checkResourceExist env.serviceAccountQ.1 env.serviceAccountQ.2
  let acc3 := r3 && acc2
  let rPair1 :=
    if nsRestricted then checkResourceExist env.roleQ.1 env.roleQ.2
    else checkResourceExist env.clusterRoleQ.1 env.clusterRoleQ.2
  let acc4 := rPair1 && acc3
  let rPair2 :=
    if nsRestricted then checkResourceExist env.roleBindingQ.1 env.roleBindingQ.2
    else checkResourceExist env.clusterRoleBindingQ.1 env.clusterRoleBindingQ.2
  let acc5 := rPair2 && acc4
  let rSvc := checkResourceExist env.serviceQ.1 env.serviceQ.2
  let acc6 := rSvc && acc5
  let podRes := checkPodResourcesExist env.serverPodsQ env.tapperPodsQ
  let acc7 := podRes.1 && acc6
  (acc7,
    [⟨ResourceKind.nsResource, r1, none⟩,
     ⟨ResourceKind.configMap, r2, none⟩,
     ⟨ResourceKind.serviceAccount, r3, none⟩,
     ⟨if nsRestricted then ResourceKind.role else ResourceKind.clusterRole, rPair1, none⟩,
     ⟨if nsRestricted then ResourceKind.roleBinding else ResourceKind.clusterRoleBinding,
       rPair2, none⟩,
     ⟨ResourceKind.service, rSvc, none⟩] ++ podRes.2)

/-- Oracle for one tunnel attempt (checkProxy or checkPortForward): whether
acquiring the tunnel succeeds, whether the probe TestConnection through it
succeeds, and whether the teardown call itself reports an error (logged only).
Modelled from the spec: StartProxy and NewPortForward (shared/kubernetes, not
under src/) return a closable handle; only the explicit Shutdown or Close call
closes the handle. -/
structure TunnelEnv where
  startErr : Option String
  probeErr : Option String
  closeErr : Option String
  deriving DecidableEq, Repr

/-- Externally visible steps of a tunnel attempt, in order. -/
inductive TunnelAction where
  | start
  | probe
  | closeHandle
  | cancelCtx
  deriving DecidableEq, Repr

/-- checkProxy (check.go:157-176): StartProxy, probe through it, and
httpServer.Shutdown only after a successful probe (its own error is logged);
the deferred cancel() runs on every return path. -/
def checkProxy (env : TunnelEnv) : Option String × List TunnelAction :=
  match env.startErr with
  | some e => (some e, [TunnelAction.start, TunnelAction.cancelCtx])
  | none =>
      match env.probeErr with
      | some e => (some e, [TunnelAction.start, TunnelAction.probe, TunnelAction.cancelCtx])
      | none =>
          (none,
            [TunnelAction.start, TunnelAction.probe, TunnelAction.closeHandle,
             TunnelAction.cancelCtx])

/-- checkPortForward (check.go:178-196): NewPortForward, probe through it, and
forwarder.Close() only after a successful probe; the deferred cancel() runs on
every return path. -/
def checkPortForward (env : TunnelEnv) : Option String × List TunnelAction :=
  match env.startErr with
  | some e => (some e, [TunnelAction.start, TunnelAction.cancelCtx])
  | none =>
      match env.probeErr with
      | some e => (some e, [TunnelAction.start, TunnelAction.probe, TunnelAction.cancelCtx])
      | none =>
          (none,
            [TunnelAction.start, TunnelAction.probe, TunnelAction.closeHandle,
             TunnelAction.cancelCtx])

/-- The three transport strategies of checkServerConnection. -/
inductive Transport where
  | direct
  | proxy
  | portForward
  deriving DecidableEq, Repr

/-- Oracles for checkServerConnection: the direct TestConnection outcome and
one tunnel environment per fallback strategy. -/
structure ConnectivityEnv where
  directErr : Option String
  proxyEnv : TunnelEnv
  portForwardEnv : TunnelEnv
  deriving DecidableEq, Repr

/-- checkServerConnection (check.go:127-155): return true immediately when the
direct connection succeeds; otherwise try the proxy tunnel and then,
unconditionally, the port-forward tunnel, setting connectedToApiServer on
either success. -/
def checkServerConnection (env : ConnectivityEnv) : Bool × List (Transport × Bool) :=
  match env.directErr with
  | none => (true, [(Transport.direct, true)])
  | some _ =>
      let proxyOk := (checkProxy env.proxyEnv).1.isNone
      let portForwardOk := (checkPortForward env.portForwardEnv).1.isNone
      (proxyOk || portForwardOk,
        [(Transport.direct, false), (Transport.proxy, proxyOk),
         (Transport.portForward, portForwardOk)])

/-- Oracles for checkImagePullInCluster: resource-creation outcomes, the watch
trace for the readiness wait, and the best-effort removal outcomes. -/
structure ImagePullEnv where
  createNamespaceErr : Option String
  createPodErr : Option String
  watchTrace : List WatchItem
  removePodErr : Option String
  removeNamespaceErr : Option String
  deriving DecidableEq, Repr

/-- Externally visible steps of checkImagePullInCluster; the removal actions
record whether the removal itself failed (only logged). -/
inductive PullAction where
  | createResources
  | waitForPull
  | removePod (failedLogged : Bool)
  | removeNamespace (failedLogged : Bool)
  deriving DecidableEq, Repr

/-- createImagePullInClusterResources (check.go:424-455): create the namespace
first unless in namespace-restricted mode, then the probe pod. -/
def createImagePullInClusterResources (nsRestricted : Bool) (env : ImagePullEnv) :
    Option String :=
  if !nsRestricted then
    match env.createNamespaceErr with
    | some e => some e
    | none => env.createPodErr
  else env.createPodErr

/-- removeImagePullInClusterResources (check.go:412-422): best-effort removal
of the probe pod and, outside namespace-restricted mode, the namespace; errors
are logged (recorded in the action) and never returned. -/
def removeImagePullInClusterResources (nsRestricted : Bool) (env : ImagePullEnv) :
    List PullAction :=
  [PullAction.removePod env.removePodErr.isSome] ++
    (if !nsRestricted then [PullAction.removeNamespace env.removeNamespaceErr.isSome] else [])

/-- checkImagePullInCluster (check.go:356-374): deferred cleanup runs on every
return path; create, then wait for the pull, verdict from the wait. -/
def checkImagePullInCluster (nsRestricted : Bool) (env : ImagePullEnv) :
    Bool × List PullAction :=
  match createImagePullInClusterResources nsRestricted env with
  | some _ =>
      (false, [PullAction.createResources] ++ removeImagePullInClusterResources nsRestricted env)
  | none =>
      match checkImagePulled env.watchTrace with
      | PullResult.failure _ =>
          (false,
            [PullAction.createResources, PullAction.waitForPull] ++
              removeImagePullInClusterResources nsRestricted env)
      | PullResult.success =>
          (true,
            [PullAction.createResources, PullAction.waitForPull] ++
              removeImagePullInClusterResources nsRestricted env)

/-- Oracles for checkK8sTapPermissions: manifest read and decode outcomes, the
decoded rules, and the CanI oracle. -/
structure TapPermissionsEnv where
  readFileErr : Option String
  decodeErr : Option String
  rules : List PolicyRule
  canI : CanIOracle

/-- checkK8sTapPermissions (check.go:283-313): manifest read error or decode
error fails the stage; otherwise the verdict of checkPermissions. -/
def checkK8sTapPermissions (env : TapPermissionsEnv) : Bool :=
  match env.readFileErr with
  | some _ => false
  | none =>
      match env.decodeErr with
      | some _ => false
      | none => (checkPermissions env.canI env.rules).1

/-- Oracles for one whole run of runMizuCheck. -/
structure MizuCheckEnv where
  newProviderErr : Option String
  getVersionErr : Option String
  validateVersionErr : Option String
  permEnv : TapPermissionsEnv
  imagePullEnv : ImagePullEnv
  resourcesEnv : K8sResourcesEnv
  connectivityEnv : ConnectivityEnv

/-- checkKubernetesApi (check.go:95-113): client construction then version
query; either error fails the stage. -/
def checkKubernetesApi (env : MizuCheckEnv) : Bool :=
  match env.newProviderErr with
  | some _ => false
  | none =>
      match env.getVersionErr with
      | some _ => false
      | none => true

/-- checkKubernetesVersion (check.go:115-125): ValidateKubernetesVersion
outcome. -/
def checkKubernetesVersion (env : MizuCheckEnv) : Bool :=
  match env.validateVersionErr with
  | some _ => false
  | none => true

/-- The six stages runMizuCheck can run. -/
inductive Stage where
  | kubernetesApi
  | kubernetesVersion
  | tapPermissions
  | imagePull
  | k8sResources
  | serverConnection
  deriving DecidableEq, Repr

/-- runMizuCheck (check.go:58-93): checkPassed threads through the stages, each
guarded by if checkPassed; the trace records each stage that ran with its
boolean result. -/
def runMizuCheck (preTap nsRestricted : Bool) (env : MizuCheckEnv) :
    Bool × List (Stage × Bool) :=
  let a := checkKubernetesApi env
  let s1 : Bool × List (Stage × Bool) := (a, [(Stage.kubernetesApi, a)])
  let s2 :=
    if s1.1 then
      (checkKubernetesVersion env, s1.2 ++ [(Stage.kubernetesVersion, checkKubernetesVersion env)])
    else s1
  if preTap then
    let s3 :=
      if s2.1 then
        (checkK8sTapPermissions env.permEnv,
          s2.2 ++ [(Stage.tapPermissions, checkK8sTapPermissions env.permEnv)])
      else s2
    let s4 :=
      if s3.1 then
        ((checkImagePullInCluster nsRestricted env.imagePullEnv).1,
          s3.2 ++ [(Stage.imagePull, (checkImagePullInCluster nsRestricted env.imagePullEnv).1)])
      else s3
    s4
  else
    let s3 :=
      if s2.1 then
        ((checkK8sResources nsRestricted env.resourcesEnv).1,
          s2.2 ++ [(Stage.k8sResources, (checkK8sResources nsRestricted env.resourcesEnv).1)])
      else s2
    let s4 :=
      if s3.1 then
        ((checkServerConnection env.connectivityEnv).1,
          s3.2 ++ [(Stage.serverConnection, (checkServerConnection env.connectivityEnv).1)])
      else s3
    s4

/-- Spec-side (claim C1): the fixed stage order of the orchestrator. -/
def specStageOrder (preTap : Bool) : List Stage :=
  [Stage.kubernetesApi, Stage.kubernetesVersion] ++
    (if preTap then [Stage.tapPermissions, Stage.imagePull]
     else [Stage.k8sResources, Stage.serverConnection])

/-- Spec-side (claim C1): each stage executes only if all preceding stages
returned true; an executed stage records its boolean result, a skipped stage
records nothing. -/
def specGatedTrace (res : Stage → Bool) : List Stage → List (Stage × Bool)
  | [] => []
  | s :: rest => (s, res s) :: (if res s then specGatedTrace res rest else [])

/-- The boolean each stage returns in environment env, per the source stage
functions. -/
def stageResult (nsRestricted : Bool) (env : MizuCheckEnv) : Stage → Bool
  | Stage.kubernetesApi => checkKubernetesApi env
  | Stage.kubernetesVersion => checkKubernetesVersion env
  | Stage.tapPermissions => checkK8sTapPermissions env.permEnv
  | Stage.imagePull => (checkImagePullInCluster nsRestricted env.imagePullEnv).1
  | Stage.k8sResources => (checkK8sResources nsRestricted env.resourcesEnv).1
  | Stage.serverConnection => (checkServerConnection env.connectivityEnv).1

/-- Whether the api-server pod sub-check passes: the listing succeeded, the
list is non-empty and its first pod is running. -/
def serverPodOk (serverPodsQ : Except String (List Pod)) : Bool :=
  match serverPodsQ with
  | Except.error _ => false
  | Except.ok [] => false
  | Except.ok (pod0 :: _) => isPodRunning pod0

/-- Spec-side (claim C2): the fixed catalog subjects up to and including the
server pod, in report order. -/
def specResourceCatalog (nsRestricted : Bool) : List ResourceKind :=
  [ResourceKind.nsResource, ResourceKind.configMap, ResourceKind.serviceAccount] ++
    (if nsRestricted then [ResourceKind.role, ResourceKind.roleBinding]
     else [ResourceKind.clusterRole, ResourceKind.clusterRoleBinding]) ++
    [ResourceKind.service, ResourceKind.serverPod]

/-- An environment where every catalog resource exists but the server pod
listing comes back empty; used to exhibit the skipped tapper check. -/
def envTapperSkipped : K8sResourcesEnv :=
  ⟨(true, none), (true, none), (true, none), (true, none), (true, none),
   (true, none), (true, none), (true, none), Except.ok [],
   Except.ok [Pod.mk PodPhase.running]⟩

/-! Theorems. -/

theorem checkImagePulled_cons_nonTerminal (x : WatchItem) (tr : List WatchItem)
    (h : nonTerminal x = true) :
    checkImagePulled (x :: tr) = checkImagePulled tr := by
  cases x with
  | evt conv =>
      cases conv with
      | error e => simp [nonTerminal] at h
      | ok pod =>
          simp [nonTerminal] at h
          simp [checkImagePulled, h]
  | evtClosed => rfl
  | errItem e => simp [nonTerminal] at h
  | errClosed => rfl

theorem checkImagePulled_append_nonTerminal (pre tr : List WatchItem)
    (h : ∀ x ∈ pre, nonTerminal x = true) :
    checkImagePulled (pre ++ tr) = checkImagePulled tr := by
  induction pre with
  | nil => rfl
  | cons x rest ih =>
      rw [List.cons_append, checkImagePulled_cons_nonTerminal x _ (h x (by simp)),
        ih (fun y hy => h y (by simp [hy]))]

/-- C4: in checkImagePulled, if a pod event whose phase is Running is received
before the deadline (the trace is not yet exhausted) and before any error
(everything earlier in the merged trace is a close or a non-Running pod
event), the function returns success immediately, regardless of any items —
including error-channel deliveries — that would arrive afterward. -/
theorem checkImagePulled_running_first_wins (pre post : List WatchItem) (pod : Pod)
    (hpre : ∀ x ∈ pre, nonTerminal x = true) (hrun : pod.phase = PodPhase.running) :
    checkImagePulled (pre ++ WatchItem.evt (Except.ok pod) :: post) = PullResult.success := by
  rw [checkImagePulled_append_nonTerminal pre _ hpre]
  simp [checkImagePulled, hrun]

/-- Witness for C4: a close and a Pending event precede the Running event; an
error-channel delivery follows it; the result is success. -/
theorem checkImagePulled_running_first_wins_witness :
    checkImagePulled
      [WatchItem.evtClosed, WatchItem.evt (Except.ok (Pod.mk PodPhase.pending)),
       WatchItem.evt (Except.ok (Pod.mk PodPhase.running)), WatchItem.errItem "late error"] =
      PullResult.success :=
  checkImagePulled_running_first_wins
    [WatchItem.evtClosed, WatchItem.evt (Except.ok (Pod.mk PodPhase.pending))]
    [WatchItem.errItem "late error"] (Pod.mk PodPhase.running) (by decide) rfl

/-- C5: a close on either channel is not terminal — the loop continues on the
rest of the trace — and if the trace holds no Running pod event, no malformed
event and no error delivery (including the case where both channels closed),
the result is the timeout failure, produced when the deadline fires after the
whole trace. -/
theorem checkImagePulled_close_not_terminal_timeout (tr : List WatchItem)
    (h : ∀ x ∈ tr, nonTerminal x = true) :
    (∀ tr2 : List WatchItem,
      checkImagePulled (WatchItem.evtClosed :: tr2) = checkImagePulled tr2 ∧
      checkImagePulled (WatchItem.errClosed :: tr2) = checkImagePulled tr2) ∧
    checkImagePulled tr = PullResult.failure "image not pulled in time" := by
  refine ⟨fun tr2 => ⟨rfl, rfl⟩, ?_⟩
  have halt := checkImagePulled_append_nonTerminal tr [] h
  simpa using halt

/-- Witness for C5: both channels close with no terminal event; the result is
the timeout failure. -/
theorem checkImagePulled_close_not_terminal_timeout_witness :
    checkImagePulled [WatchItem.evtClosed, WatchItem.errClosed] =
      PullResult.failure "image not pulled in time" :=
  (checkImagePulled_close_not_terminal_timeout [WatchItem.evtClosed, WatchItem.errClosed]
    (by decide)).2

/-- C10: a pod event whose conversion fails is terminal: checkImagePulled
returns that error immediately, before the deadline, even if later events
would show the pod Running. -/
theorem checkImagePulled_malformed_event_terminal (pre post : List WatchItem) (e : String)
    (hpre : ∀ x ∈ pre, nonTerminal x = true) :
    checkImagePulled (pre ++ WatchItem.evt (Except.error e) :: post) = PullResult.failure e := by
  rw [checkImagePulled_append_nonTerminal pre _ hpre]
  rfl

/-- Witness for C10: a malformed event after a Pending event and before a
Running event yields the conversion error. -/
theorem checkImagePulled_malformed_event_terminal_witness :
    checkImagePulled
      [WatchItem.evt (Except.ok (Pod.mk PodPhase.pending)),
       WatchItem.evt (Except.error "conversion failed"),
       WatchItem.evt (Except.ok (Pod.mk PodPhase.running))] =
      PullResult.failure "conversion failed" :=
  checkImagePulled_malformed_event_terminal
    [WatchItem.evt (Except.ok (Pod.mk PodPhase.pending))]
    [WatchItem.evt (Except.ok (Pod.mk PodPhase.running))] "conversion failed" (by decide)

theorem checkPermissionExist_eq_true (exist : Bool) (err : Option String) :
    checkPermissionExist exist err = true ↔ err = none ∧ exist = true := by
  cases err <;> cases exist <;> simp [checkPermissionExist]

theorem permLoop_trace (canI : CanIOracle) (ts : List (String × String × String)) (acc : Bool) :
    (permLoop canI ts acc).2 =
      ts.map fun t =>
        (t.1, t.2.1, t.2.2,
          checkPermissionExist (canI t.1 t.2.1 t.2.2).1 (canI t.1 t.2.1 t.2.2).2) := by
  induction ts generalizing acc with
  | nil => rfl
  | cons t rest ih =>
      obtain ⟨g, r, v⟩ := t
      simp [permLoop, ih]

theorem permLoop_fst (canI : CanIOracle) (ts : List (String × String × String)) (acc : Bool) :
    (permLoop canI ts acc).1 =
      (acc && ts.all fun t =>
        checkPermissionExist (canI t.1 t.2.1 t.2.2).1 (canI t.1 t.2.1 t.2.2).2) := by
  induction ts generalizing acc with
  | nil => simp [permLoop]
  | cons t rest ih =>
      obtain ⟨g, r, v⟩ := t
      simp only [permLoop, ih, List.all_cons]
      cases acc <;> cases hq : checkPermissionExist (canI g r v).1 (canI g r v).2 <;> simp

theorem length_resourceTuples (g : String) (rs vs : List String) :
    (rs.flatMap fun r => vs.map fun v => (g, r, v)).length = rs.length * vs.length := by
  induction rs with
  | nil => simp
  | cons r rest ih =>
      rw [List.flatMap_cons, List.length_append, List.length_map, ih, List.length_cons]
      ring

theorem length_groupTuples (gs rs vs : List String) :
    (gs.flatMap fun g => rs.flatMap fun r => vs.map fun v => (g, r, v)).length =
      gs.length * rs.length * vs.length := by
  induction gs with
  | nil => simp
  | cons g rest ih =>
      rw [List.flatMap_cons, List.length_append, length_resourceTuples, ih, List.length_cons]
      ring

theorem permTuples_length (rules : List PolicyRule) :
    (permTuples rules).length =
      (rules.map fun r => r.apiGroups.length * r.resources.length * r.verbs.length).sum := by
  induction rules with
  | nil => rfl
  | cons r rest ih =>
      rw [permTuples, List.flatMap_cons, List.length_append, length_groupTuples]
      rw [permTuples] at ih
      rw [ih, List.map_cons, List.sum_cons]

/-- C3: checkPermissions issues exactly the sum over all rules of
APIGroups x Resources x Verbs permission queries, one record per (group,
resource, verb) tuple in loop order with no deduplication across rules, and
returns true if and only if every query returned allowed with no error. -/
theorem checkPermissions_crossProduct (canI : CanIOracle) (rules : List PolicyRule) :
    (checkPermissions canI rules).2.length =
      (rules.map fun r => r.apiGroups.length * r.resources.length * r.verbs.length).sum ∧
    (checkPermissions canI rules).2 =
      ((permTuples rules).map fun t =>
        (t.1, t.2.1, t.2.2,
          checkPermissionExist (canI t.1 t.2.1 t.2.2).1 (canI t.1 t.2.1 t.2.2).2)) ∧
    ((checkPermissions canI rules).1 = true ↔
      ∀ t ∈ permTuples rules,
        (canI t.1 t.2.1 t.2.2).2 = none ∧ (canI t.1 t.2.1 t.2.2).1 = true) := by
  refine ⟨?_, permLoop_trace canI (permTuples rules) true, ?_⟩
  · rw [checkPermissions, permLoop_trace, List.length_map, permTuples_length]
  · rw [checkPermissions, permLoop_fst]
    simp [List.all_eq_true, checkPermissionExist_eq_true]

/-- C1: runMizuCheck runs the stages in the fixed order API-reachability, then
version check, then in pre-tap mode permission check then image-pull check,
otherwise resource-existence check then connectivity check; each stage runs
only if all preceding stages returned true (specGatedTrace), and the verdict
is the conjunction of the results of exactly the stages that ran. -/
theorem runMizuCheck_stage_gating (preTap nsRestricted : Bool) (env : MizuCheckEnv) :
    (runMizuCheck preTap nsRestricted env).2 =
      specGatedTrace (stageResult nsRestricted env) (specStageOrder preTap) ∧
    (runMizuCheck preTap nsRestricted env).1 =
      ((runMizuCheck preTap nsRestricted env).2.map Prod.snd).all id := by
  cases preTap <;>
  cases hA : checkKubernetesApi env <;>
  cases hV : checkKubernetesVersion env <;>
  cases hP : checkK8sTapPermissions env.permEnv <;>
  cases hI : (checkImagePullInCluster nsRestricted env.imagePullEnv).1 <;>
  cases hR : (checkK8sResources nsRestricted env.resourcesEnv).1 <;>
  cases hC : (checkServerConnection env.connectivityEnv).1 <;>
  simp [runMizuCheck, specStageOrder, specGatedTrace, stageResult, hA, hV, hP, hI, hR, hC]

theorem countTappersLoop_spec (pods : List Pod) (t n : Nat) :
    countTappersLoop pods (t, n) =
      (t + pods.length, n + (pods.filter fun p => !(isPodRunning p)).length) := by
  induction pods generalizing t n with
  | nil => simp [countTappersLoop]
  | cons p rest ih =>
      cases hp : isPodRunning p <;>
        simp [countTappersLoop, List.filter_cons, hp, ih] <;> omega

theorem countTappers_spec (pods : List Pod) :
    countTappers pods = (pods.length, (pods.filter fun p => !(isPodRunning p)).length) := by
  have h := countTappersLoop_spec pods 0 0
  simpa [countTappers] using h

/-- C9: when the tapper pod listing succeeds, the check fails exactly when the
number k of listed pods not in the Running state is positive, and reports k
out of N in its detail; an empty listing is k = N = 0 and reports success. -/
theorem checkTapperPods_count_spec :
    (checkTapperPods (Except.ok ([] : List Pod))).1 = true ∧
    ∀ pods : List Pod,
      ((checkTapperPods (Except.ok pods)).1 = true ↔
        (pods.filter fun p => !(isPodRunning p)).length = 0) ∧
      (checkTapperPods (Except.ok pods)).2 =
        [⟨ResourceKind.tapperPods, (checkTapperPods (Except.ok pods)).1,
          some ((pods.filter fun p => !(isPodRunning p)).length, pods.length)⟩] := by
  refine ⟨rfl, fun pods => ?_⟩
  rcases Nat.eq_zero_or_pos ((pods.filter fun p => !(isPodRunning p)).length) with h | h
  · simp [checkTapperPods, countTappers_spec, h]
  · constructor
    · simp [checkTapperPods, countTappers_spec, h]
      obtain ⟨x, hx⟩ := List.exists_mem_of_ne_nil _ (List.ne_nil_of_length_pos h)
      have hm := List.mem_filter.mp hx
      exact ⟨x, hm.1, by simpa using hm.2⟩
    · simp [checkTapperPods, countTappers_spec, h]

theorem checkTapperPods_fst_all (tQ : Except String (List Pod)) :
    (checkTapperPods tQ).1 = ((checkTapperPods tQ).2.all fun e => e.passed) := by
  cases tQ with
  | error e => rfl
  | ok pods =>
      by_cases h : (countTappers pods).2 > 0 <;> simp [checkTapperPods, h]

theorem checkTapperPods_subjects (tQ : Except String (List Pod)) :
    ((checkTapperPods tQ).2.map fun e => e.subject) = [ResourceKind.tapperPods] := by
  cases tQ with
  | error e => rfl
  | ok pods =>
      by_cases h : (countTappers pods).2 > 0 <;> simp [checkTapperPods, h]

theorem checkPodResourcesExist_fst_all (sQ tQ : Except String (List Pod)) :
    (checkPodResourcesExist sQ tQ).1 =
      ((checkPodResourcesExist sQ tQ).2.all fun e => e.passed) := by
  cases sQ with
  | error e => rfl
  | ok pods =>
      cases pods with
      | nil => rfl
      | cons p0 rest =>
          cases hp : isPodRunning p0 <;>
            simp [checkPodResourcesExist, hp, checkTapperPods_fst_all]

theorem checkPodResourcesExist_subjects (sQ tQ : Except String (List Pod)) :
    ((checkPodResourcesExist sQ tQ).2.map fun e => e.subject) =
      ResourceKind.serverPod :: (if serverPodOk sQ then [ResourceKind.tapperPods] else []) := by
  cases sQ with
  | error e => rfl
  | ok pods =>
      cases pods with
      | nil => rfl
      | cons p0 rest =>
          cases hp : isPodRunning p0 <;>
            simp [checkPodResourcesExist, serverPodOk, hp, checkTapperPods_subjects]

/-- C2 (amended): every non-pod entry of the fixed catalog — namespace, config
map, service account, the mode-dependent role pair, the service — is evaluated
and individually reported even when an earlier entry fails (in particular both
cluster-role and cluster-role-binding results are produced), the server pod is
always reported, the tapper pod set is evaluated only when the server-pod check
passed, and the stage result is the conjunction of all reported results. -/
theorem checkK8sResources_catalog_conjunction (nsRestricted : Bool) (env : K8sResourcesEnv) :
    ((checkK8sResources nsRestricted env).2.map fun e => e.subject) =
      specResourceCatalog nsRestricted ++
        (if serverPodOk env.serverPodsQ then [ResourceKind.tapperPods] else []) ∧
    (checkK8sResources nsRestricted env).1 =
      ((checkK8sResources nsRestricted env).2.all fun e => e.passed) := by
  constructor
  · cases nsRestricted <;>
      simp [checkK8sResources, specResourceCatalog, checkPodResourcesExist_subjects]
  · have hpod := checkPodResourcesExist_fst_all env.serverPodsQ env.tapperPodsQ
    simp only [checkK8sResources, List.all_append, List.all_cons, List.all_nil]
    rw [hpod]
    cases ((checkPodResourcesExist env.serverPodsQ env.tapperPodsQ).2.all fun e => e.passed) <;>
    cases checkResourceExist env.namespaceQ.1 env.namespaceQ.2 <;>
    cases checkResourceExist env.configMapQ.1 env.configMapQ.2 <;>
    cases checkResourceExist env.serviceAccountQ.1 env.serviceAccountQ.2 <;>
    cases checkResourceExist env.serviceQ.1 env.serviceQ.2 <;>
    cases nsRestricted <;>
    cases checkResourceExist env.roleQ.1 env.roleQ.2 <;>
    cases checkResourceExist env.roleBindingQ.1 env.roleBindingQ.2 <;>
    cases checkResourceExist env.clusterRoleQ.1 env.clusterRoleQ.2 <;>
    cases checkResourceExist env.clusterRoleBindingQ.1 env.clusterRoleBindingQ.2 <;>
    simp

/-- C2 (counterexample): in an environment where every catalog resource exists
but the server pod listing is empty, the run fails and no tapper-pod result is
reported at all, contradicting the claim that every entry of the catalog —
including the worker pod set — is evaluated and individually reported even
when an earlier entry fails. -/
theorem checkK8sResources_tapper_not_reported :
    (checkK8sResources false envTapperSkipped).1 = false ∧
    ResourceKind.tapperPods ∉
      ((checkK8sResources false envTapperSkipped).2.map fun e => e.subject) := by
  decide

/-- C6: checkServerConnection returns true exactly when some transport
strategy succeeds; a successful direct connection returns immediately with
only the direct attempt recorded, and after a direct failure both tunnels are
attempted unconditionally, the verdict being their disjunction. -/
theorem checkServerConnection_fallback_disjunction (env : ConnectivityEnv) :
    (checkServerConnection env).1 =
      (env.directErr.isNone ||
        ((checkProxy env.proxyEnv).1.isNone || (checkPortForward env.portForwardEnv).1.isNone)) ∧
    (checkServerConnection env).2 =
      (if env.directErr.isNone then [(Transport.direct, true)]
       else
        [(Transport.direct, false), (Transport.proxy, (checkProxy env.proxyEnv).1.isNone),
         (Transport.portForward, (checkPortForward env.portForwardEnv).1.isNone)]) := by
  cases h : env.directErr <;> simp [checkServerConnection, h]

/-- C7 (code behaviour at the failing input): when the tunnel opens but the
probe connection to the API server fails, checkProxy returns the probe error
without ever shutting the proxy HTTP server down, and checkPortForward
likewise returns without calling forwarder.Close; only the deferred context
cancel runs. -/
theorem checkProxy_probe_failure_leaks_handle :
    (checkProxy ⟨none, some "connection refused", none⟩).1 = some "connection refused" ∧
    TunnelAction.closeHandle ∉ (checkProxy ⟨none, some "connection refused", none⟩).2 ∧
    TunnelAction.cancelCtx ∈ (checkProxy ⟨none, some "connection refused", none⟩).2 ∧
    (checkPortForward ⟨none, some "connection refused", none⟩).1 = some "connection refused" ∧
    TunnelAction.closeHandle ∉ (checkPortForward ⟨none, some "connection refused", none⟩).2 :=
  ⟨rfl, by decide, by decide, rfl, by decide⟩

/-- C8: on every exit of checkImagePullInCluster — creation failure, readiness
failure, or success — the removal of the probe pod (and, when not in
namespace-restricted mode, the namespace) is invoked, and removal failures do
not change the returned verdict. -/
theorem checkImagePullInCluster_cleanup_always (nsRestricted : Bool) (env : ImagePullEnv) :
    PullAction.removePod env.removePodErr.isSome ∈ (checkImagePullInCluster nsRestricted env).2 ∧
    (if nsRestricted then True
     else
       PullAction.removeNamespace env.removeNamespaceErr.isSome ∈
         (checkImagePullInCluster nsRestricted env).2) ∧
    (checkImagePullInCluster nsRestricted env).1 =
      (checkImagePullInCluster nsRestricted
        ⟨env.createNamespaceErr, env.createPodErr, env.watchTrace, none, none⟩).1 := by
  rcases env with ⟨cns, cp, w, rp, rns⟩
  cases nsRestricted <;>
  simp only [checkImagePullInCluster, createImagePullInClusterResources,
    removeImagePullInClusterResources, Bool.not_false, Bool.not_true, if_true, if_false] <;>
  cases cns <;> cases cp <;> cases hw : checkImagePulled w <;> simp

end Mizu
